import Mathlib

/-!
Verification of the faas-supervisor orchestration core.

The development shallowly embeds the three source files
(`faassupervisor/supervisor.py`, `storage/providers/onedata.py`,
`storage/providers/default.py`).  Stateful Python code becomes explicit
state passing over a `St` record (environment variable `INPUT_FILE_PATH`,
a filesystem map, and a trace of observable calls); fallible code returns
an explicit success/error `Step`.  Collaborator modules that are not part
of the embedded sources (event classifier, storage factory, credentials
registry, the batch adapter's phase gating, the per-directory upload walk)
are modelled from the specification and marked as such in their doc
comments.  The external CDMI remote endpoint is modelled as a key-value
store following the wire contract in the specification.
-/

namespace FaasSup

/-- Byte strings are modelled as lists of naturals. -/
abbrev Bytes := List Nat

/-- The local filesystem: a partial map from paths to file contents.
`FileUtils.is_file p` is modelled as `(fs p).isSome`. -/
abbrev FileSys := String → Option Bytes

/-- Source types a classified event can carry (spec data model:
OBJECT_STORAGE, ONEDATA, MINIO, HTTP, UNKNOWN). -/
inductive SourceType where
  | objectStorage
  | onedata
  | minio
  | http
  | unknown
deriving DecidableEq

/-- Normalized event produced by the event classifier (spec `ParsedEvent`:
source type, object key, derived local file name). -/
structure ParsedEvent where
  sourceType : SourceType
  objectKey : String
  fileName : String
deriving DecidableEq

/-- The fatal error taxonomy (`FaasSupervisorError` and its kinds). -/
inductive SupervisorError where
  | invalidSupervisorType (t : String)
  | unsupportedProvider (stgId : String)
  | missingCredential (field : String)
  | functionExecution
  | generic
deriving DecidableEq

/-- Observable calls made during one supervisor lifetime.  The trace records
exactly the operations the claims talk about: provider resolution, storage
downloads/uploads, the orchestrator's call into the adapter's
`execute_function`, actual user-function execution, and response creation. -/
inductive Ev where
  | createTmpDirs
  | parseEventCall
  | readStorageVars
  | adapterCreated
  | batchExtraInputSteps
  | resolveInputProv
  | downloadCall (srcType : SourceType)
  | callExecuteFunction
  | userFunctionExecuted
  | uploadCall (target : Nat) (file : String) (status : Nat)
  | createResponse
  | createErrorResponse
deriving DecidableEq

def Ev.isUpload : Ev → Bool
  | Ev.uploadCall _ _ _ => true
  | _ => false

def Ev.isDownload : Ev → Bool
  | Ev.downloadCall _ => true
  | _ => false

def Ev.isUserExec : Ev → Bool
  | Ev.userFunctionExecuted => true
  | _ => false

def Ev.isResolveInput : Ev → Bool
  | Ev.resolveInputProv => true
  | _ => false

def Ev.isCallExec : Ev → Bool
  | Ev.callExecuteFunction => true
  | _ => false

/-- An event is a storage operation or a function-execution call. -/
def Ev.isStorageOrExec (e : Ev) : Bool :=
  e.isUpload || e.isDownload || e.isUserExec || e.isCallExec

/-- Behaviour of a constructed storage provider, the
`DefaultStorageProvider` contract of `storage/providers/default.py`:
`download` takes the parsed event, the input directory and the filesystem
and returns the updated filesystem together with the local path (empty
string on soft failure); `uploadStatus` gives the remote status code the
provider's upload observes for a given file name and content. -/
structure Provider where
  download : ParsedEvent → String → FileSys → FileSys × String
  uploadStatus : String → Bytes → Nat

/-- Modelled from the spec: the credentials registry (`StorageAuth`,
module `faassupervisor/storage/auth.py`, not under `src/`).  For the input
side it says, per source type, whether a provider is registered, whether a
required credential field is missing, and which provider construction
yields; the `out*` fields say the same per configured storage identifier
for the output side. -/
structure StorageAuth where
  registered : SourceType → Bool
  missingCred : SourceType → Option String
  providerOf : SourceType → Provider
  outRegistered : String → Bool
  outMissingCred : String → Option String
  outProviderOf : String → String → Provider

/-- An output target (spec data model `OutputTarget`): a storage-system
identifier and a destination path, as returned by
`storage.get_output_paths()`. -/
structure OutputTarget where
  storageId : String
  outputPath : String
deriving DecidableEq

/-- One complete configuration of a run: the environment variables read by
`supervisor.py` (`SUPERVISOR_TYPE`, `STEP`, `TMP_INPUT_DIR`,
`TMP_OUTPUT_DIR`, the initial `INPUT_FILE_PATH`), the classified event,
the credentials registry, the configured output targets, the contents of
the output directory at staging time, the initial filesystem, and the
outcome of the adapter's user-function execution and response creation. -/
structure Sys where
  typ : String
  step : String
  tmpInputDir : String
  tmpOutputDir : String
  inputFilePath0 : Option String
  event : ParsedEvent
  auth : StorageAuth
  targets : List OutputTarget
  outputFiles : List (String × Bytes)
  fs0 : FileSys
  execOutcome : Except SupervisorError Unit
  respOutcome : Except SupervisorError Unit

/-- Mutable state threaded through a run: the `INPUT_FILE_PATH` variable,
the filesystem, and the trace of observable calls. -/
structure St where
  inputFilePath : Option String
  fs : FileSys
  trace : List Ev

def St.emit (st : St) (e : Ev) : St :=
  { st with trace := st.trace ++ [e] }

def initSt (s : Sys) : St :=
  { inputFilePath := s.inputFilePath0, fs := s.fs0, trace := [] }

/-- Outcome of one orchestration phase: normal return, or a raised
`FaasSupervisorError` together with the state at the raise point. -/
inductive Step where
  | ok (st : St)
  | err (e : SupervisorError) (st : St)

def Step.st : Step → St
  | Step.ok st => st
  | Step.err _ st => st

def Step.isErr : Step → Bool
  | Step.ok _ => false
  | Step.err _ _ => true

/-- `_is_batch_environment`: `SUPERVISOR_TYPE == 'BATCH'`. -/
def isBatch (s : Sys) : Bool := s.typ = "BATCH"

/-- Modelled from the spec: input provider resolution
(`StorageAuth.get_auth_data_by_stg_type` plus `storage.create_provider`,
both in modules not under `src/`).  Per the spec's orchestration step 5,
resolution is skipped silently when the classified source type is UNKNOWN
or no provider is registered for that type; a missing required credential
field fails with `MissingCredentialError`. -/
def resolveInputProvider (auth : StorageAuth) (t : SourceType) :
    Except SupervisorError (Option Provider) :=
  if t = SourceType.unknown then Except.ok none
  else if auth.registered t = false then Except.ok none
  else
    match auth.missingCred t with
    | some f => Except.error (SupervisorError.missingCredential f)
    | none => Except.ok (some (auth.providerOf t))

/-- Modelled from the spec: output provider resolution
(`storage.create_provider` on `stg_auth.get_data_by_stg_id`, modules not
under `src/`).  An unregistered storage identifier raises
`UnsupportedProviderError`; a missing required credential field raises
`MissingCredentialError`. -/
def resolveOutputProvider (auth : StorageAuth) (t : OutputTarget) :
    Except SupervisorError Provider :=
  if auth.outRegistered t.storageId = false then
    Except.error (SupervisorError.unsupportedProvider t.storageId)
  else
    match auth.outMissingCred t.storageId with
    | some f => Except.error (SupervisorError.missingCredential f)
    | none => Except.ok (auth.outProviderOf t.storageId t.outputPath)

/-- `Supervisor._get_output_providers`: the Python list comprehension
resolves a provider for every configured output target, left to right,
aborting the whole list on the first raised error. -/
def getOutputProviders (auth : StorageAuth) :
    List OutputTarget → Except SupervisorError (List Provider)
  | [] => Except.ok []
  | t :: ts =>
    match resolveOutputProvider auth t with
    | Except.error e => Except.error e
    | Except.ok p =>
      match getOutputProviders auth ts with
      | Except.error e => Except.error e
      | Except.ok ps => Except.ok (p :: ps)

/-- The part of `Supervisor._parse_input` after the batch gate: resolve the
input provider from the event's source type, and when one is found,
download into `TMP_INPUT_DIR`; set `INPUT_FILE_PATH` only when the
returned path is non-empty and names an existing file. -/
def parseInputCommon (s : Sys) (st : St) : Step :=
  match resolveInputProvider s.auth s.event.sourceType with
  | Except.error e => Step.err e (st.emit Ev.resolveInputProv)
  | Except.ok none => Step.ok (st.emit Ev.resolveInputProv)
  | Except.ok (some prov) =>
    let st1 := (st.emit Ev.resolveInputProv).emit (Ev.downloadCall s.event.sourceType)
    let r := prov.download s.event s.tmpInputDir st1.fs
    let st2 : St := { st1 with fs := r.1 }
    if r.2 ≠ "" ∧ (r.1 r.2).isSome then
      Step.ok { st2 with inputFilePath := some r.2 }
    else
      Step.ok st2

/-- `Supervisor._parse_input`: in a batch environment, return immediately
unless `STEP == 'INIT'`; at INIT first run the batch adapter's extra
input-staging steps (`self.supervisor.parse_input()`, modelled from the
spec as a non-failing backend-specific step since the batch adapter is not
under `src/`), then proceed to the common download path. -/
def parseInput (s : Sys) (st : St) : Step :=
  if isBatch s then
    if s.step ≠ "INIT" then Step.ok st
    else parseInputCommon s (st.emit Ev.batchExtraInputSteps)
  else parseInputCommon s st

/-- The orchestrator's `self.supervisor.execute_function()` call in
`Supervisor.run`, which happens on every run that passes input staging.
Whether the user function actually executes inside the adapter is
modelled from the spec for the batch variant (the batch adapter is not
under `src/`): execution is skipped when batch and the phase is not RUN;
the synchronous variants always execute. -/
def executeFunction (s : Sys) (st : St) : Step :=
  let st1 := st.emit Ev.callExecuteFunction
  if isBatch s = true ∧ s.step ≠ "RUN" then Step.ok st1
  else
    match s.execOutcome with
    | Except.ok _ => Step.ok (st1.emit Ev.userFunctionExecuted)
    | Except.error e => Step.err e (st1.emit Ev.userFunctionExecuted)

/-- Modelled from the spec: `storage.upload_output` (module not under
`src/`) uploads every file of the output directory through the given
provider; the providers are used in configuration order, the target index
and observed status are recorded on the trace, and a non-success status is
only logged, never raised. -/
def uploadAllFrom (files : List (String × Bytes)) :
    Nat → List Provider → List Ev
  | _, [] => []
  | i, p :: ps =>
    files.map (fun nc => Ev.uploadCall i nc.1 (p.uploadStatus nc.1 nc.2)) ++
      uploadAllFrom files (i + 1) ps

/-- `Supervisor._parse_output`: in a batch environment, return immediately
unless `STEP == 'END'`; otherwise resolve all output providers (aborting
on the first resolution error) and upload the output directory's contents
to each. -/
def parseOutput (s : Sys) (st : St) : Step :=
  if isBatch s = true ∧ s.step ≠ "END" then Step.ok st
  else
    match getOutputProviders s.auth s.targets with
    | Except.error e => Step.err e st
    | Except.ok provs =>
      Step.ok { st with trace := st.trace ++ uploadAllFrom s.outputFiles 0 provs }

/-- The body of `Supervisor.run`'s try block: `_parse_input`, then
`execute_function`, then `_parse_output`, each aborting the pipeline when
it raises. -/
def phases (s : Sys) : Step :=
  match parseInput s (initSt s) with
  | Step.err e st => Step.err e st
  | Step.ok st1 =>
    match executeFunction s st1 with
    | Step.err e st => Step.err e st
    | Step.ok st2 =>
      match parseOutput s st2 with
      | Step.err e st => Step.err e st
      | Step.ok st3 => Step.ok st3

/-- The value `Supervisor.run` returns: the adapter's success response or
its error response. -/
inductive Response where
  | success
  | error
deriving DecidableEq

/-- `Supervisor.run`: run the three phases and create the adapter's
response; any `FaasSupervisorError` raised in the try block (including one
raised while creating the success response) is caught by the single
handler and converted into the adapter's error response. -/
def run (s : Sys) : St × Response :=
  match phases s with
  | Step.ok st =>
    match s.respOutcome with
    | Except.ok _ => (st.emit Ev.createResponse, Response.success)
    | Except.error _ => (st.emit Ev.createErrorResponse, Response.error)
  | Step.err _ st => (st.emit Ev.createErrorResponse, Response.error)

/-- Whether some orchestration-level operation of `run` raises a
`FaasSupervisorError`: one of the three phases, or response creation. -/
def anyPhaseFails (s : Sys) : Bool :=
  (phases s).isErr ||
    (match s.respOutcome with
     | Except.ok _ => false
     | Except.error _ => true)

/-- `_create_supervisor`: select the adapter variant from
`SUPERVISOR_TYPE`; an unknown value raises `InvalidSupervisorTypeError`. -/
def createSupervisor (typ : String) : Except SupervisorError Unit :=
  if typ = "LAMBDA" then Except.ok ()
  else if typ = "BATCH" then Except.ok ()
  else if typ = "OPENFAAS" then Except.ok ()
  else Except.error (SupervisorError.invalidSupervisorType typ)

/-- The calls `Supervisor.__init__` makes before adapter construction:
temporary directory creation, event classification, and reading the
storage authentication variables.  None of them is a storage operation or
a function-execution call. -/
def initTrace : List Ev :=
  [Ev.createTmpDirs, Ev.parseEventCall, Ev.readStorageVars]

/-- `_start_supervisor`: construct the `Supervisor` (whose constructor
ends by selecting the adapter) and, only when construction succeeded, call
`run`.  A construction error escapes uncaught. -/
def startSupervisor (s : Sys) : Except SupervisorError Response × List Ev :=
  match createSupervisor s.typ with
  | Except.error e => (Except.error e, initTrace)
  | Except.ok _ =>
    let r := run s
    (Except.ok r.2, (initTrace ++ [Ev.adapterCreated]) ++ r.1.trace)

/-! ## The Onedata storage provider (`storage/providers/onedata.py`) -/

/-- Credentials the Onedata provider reads from its auth data
(`SPACE`, `HOST`, `TOKEN`). -/
structure OnedataConf where
  space : String
  host : String
  token : String

namespace Onedata

/-- `Onedata._CDMI_PATH`. -/
def cdmiPath : String := "cdmi"

/-- The URL `download_file` requests:
`'https://{host}/{cdmi}{object_key}'`. -/
def downloadUrl (od : OnedataConf) (objectKey : String) : String :=
  "https://" ++ od.host ++ "/" ++ cdmiPath ++ objectKey

/-- The URL `upload_file` writes to:
`'https://{host}/{cdmi}/{space}/{storage_path.path}/{file_name}'`. -/
def uploadUrl (od : OnedataConf) (storagePathPath fileName : String) : String :=
  "https://" ++ od.host ++ "/" ++ cdmiPath ++ "/" ++ od.space ++ "/" ++
    storagePathPath ++ "/" ++ fileName

/-- `SysUtils.join_paths` on a directory and a file name. -/
def joinPaths (a b : String) : String := a ++ "/" ++ b

/-- `Onedata.download_file` over an abstract HTTP GET (`get` returns the
status code and body for a URL): on status 200 the body is written to
`{input_dir}/{file_name}` and that path returned; on any other status the
failure is only logged and the empty path is returned. -/
def download_file (od : OnedataConf) (get : String → Nat × Bytes)
    (event : ParsedEvent) (inputDirPath : String) (fs : FileSys) :
    FileSys × String :=
  let r := get (downloadUrl od event.objectKey)
  if r.1 = 200 then
    let p := joinPaths inputDirPath event.fileName
    ((fun q => if q = p then some r.2 else fs q), p)
  else
    (fs, "")

/-- `Onedata.upload_file` over an abstract HTTP PUT (`put` returns the new
remote state and the status code): the local file's bytes are sent
unmodified to the upload URL; the second component records whether the
error log line fired, which the source guards with
`status_code not in [201, 202, 204]`.  Nothing is ever raised. -/
def upload_file {σ : Type} (od : OnedataConf) (storagePathPath : String)
    (put : String → Bytes → σ × Nat) (fs : FileSys)
    (filePath fileName : String) : σ × Bool :=
  let url := uploadUrl od storagePathPath fileName
  let content := (fs filePath).getD []
  let r := put url content
  (r.1, !([201, 202, 204].contains r.2))

/-- Package the Onedata operations as a `Provider` for a fixed remote read
behaviour. -/
def providerOf (od : OnedataConf) (get : String → Nat × Bytes) : Provider :=
  { download := fun ev dir fs => download_file od get ev dir fs
  , uploadStatus := fun _ _ => 201 }

end Onedata

/-- Model of the external CDMI remote endpoint, per the spec's wire
contract: a key-value store from URL to stored bytes. -/
abbrev Store := String → Option Bytes

/-- GET against the key-value remote: 200 with the stored bytes when the
URL holds an object, 404 with an empty body otherwise. -/
def cdmiGet (store : Store) (url : String) : Nat × Bytes :=
  match store url with
  | some c => (200, c)
  | none => (404, [])

/-- PUT against the key-value remote: stores the bytes under the URL and
answers 201. -/
def cdmiPut (store : Store) (url : String) (b : Bytes) : Store × Nat :=
  ((fun u => if u = url then some b else store u), 201)

/-! ## Concrete configurations used to exercise the model -/

/-- A provider whose download always soft-fails and whose uploads answer
200 (outside the success set). -/
def noProv : Provider :=
  { download := fun _ _ fs => (fs, ""), uploadStatus := fun _ _ => 200 }

/-- A provider whose uploads answer 500: every upload is a soft failure. -/
def provSoft : Provider :=
  { download := fun _ _ fs => (fs, ""), uploadStatus := fun _ _ => 500 }

/-- A registry with no registered provider at all. -/
def authNone : StorageAuth :=
  { registered := fun _ => false
  , missingCred := fun _ => none
  , providerOf := fun _ => noProv
  , outRegistered := fun _ => false
  , outMissingCred := fun _ => none
  , outProviderOf := fun _ _ => noProv }

/-- An event classified as UNKNOWN. -/
def evUnknown : ParsedEvent :=
  { sourceType := SourceType.unknown, objectKey := "", fileName := "" }

/-- The empty filesystem. -/
def emptyFs : FileSys := fun _ => none

/-- A base configuration: LAMBDA supervisor, UNKNOWN event, no output
targets, everything succeeding. -/
def baseSys : Sys :=
  { typ := "LAMBDA"
  , step := ""
  , tmpInputDir := "/tmp/input"
  , tmpOutputDir := "/tmp/output"
  , inputFilePath0 := none
  , event := evUnknown
  , auth := authNone
  , targets := []
  , outputFiles := []
  , fs0 := emptyFs
  , execOutcome := Except.ok ()
  , respOutcome := Except.ok () }

/-- A BATCH run at the INIT step. -/
def sysBatchInit : Sys := { baseSys with typ := "BATCH", step := "INIT" }

/-- A BATCH run at the END step, with one registered output target. -/
def sysBatchEnd : Sys :=
  { baseSys with
      typ := "BATCH"
    , step := "END"
    , auth := { authNone with outRegistered := fun _ => true }
    , targets := [{ storageId := "minio0", outputPath := "out" }]
    , outputFiles := [("a.txt", [1])] }

/-- A LAMBDA run whose user function raises. -/
def sysExecFails : Sys :=
  { baseSys with execOutcome := Except.error SupervisorError.functionExecution }

/-- A run with an unrecognized `SUPERVISOR_TYPE`. -/
def sysBadType : Sys := { baseSys with typ := "FOO" }

/-- A LAMBDA run with two output targets where only the first one's
storage identifier is registered: resolving the second target's provider
raises `UnsupportedProviderError`. -/
def sysTwoTargets : Sys :=
  { baseSys with
      auth := { authNone with outRegistered := fun id => id == "minio0" }
    , targets :=
        [{ storageId := "minio0", outputPath := "out" },
         { storageId := "bad", outputPath := "out2" }]
    , outputFiles := [("result.txt", [1, 2])] }

/-- A LAMBDA run with three registered output targets whose uploads all
answer 500: every upload leg is a soft failure. -/
def sysThreeSoft : Sys :=
  { baseSys with
      auth :=
        { authNone with
            outRegistered := fun _ => true
          , outProviderOf := fun _ _ => provSoft }
    , targets :=
        [{ storageId := "s1", outputPath := "p1" },
         { storageId := "s2", outputPath := "p2" },
         { storageId := "s3", outputPath := "p3" }]
    , outputFiles := [("a.txt", [1])] }

/-- A concrete Onedata configuration. -/
def odConf : OnedataConf := { space := "sp", host := "host", token := "tok" }

/-- A remote that answers 404 to every GET. -/
def get404 : String → Nat × Bytes := fun _ => (404, [])

/-- A LAMBDA run whose event resolves to a Onedata provider over a remote
that answers 404. -/
def sysOnedata404 : Sys :=
  { baseSys with
      event :=
        { sourceType := SourceType.onedata
        , objectKey := "/sp/x/f.txt"
        , fileName := "f.txt" }
    , auth :=
        { authNone with
            registered := fun t => t == SourceType.onedata
          , providerOf := fun _ => Onedata.providerOf odConf get404 } }

/-! ## Helper lemmas about the phase functions -/

theorem St.emit_trace (st : St) (e : Ev) :
    (st.emit e).trace = st.trace ++ [e] := rfl

theorem St.emit_inputFilePath (st : St) (e : Ev) :
    (st.emit e).inputFilePath = st.inputFilePath := rfl

/-- Skipping input resolution: an UNKNOWN source type, or one with no
registered provider, resolves to no provider without an error. -/
theorem resolveInputProvider_skip (auth : StorageAuth) (t : SourceType)
    (h : t = SourceType.unknown ∨ auth.registered t = false) :
    resolveInputProvider auth t = Except.ok none := by
  by_cases hu : t = SourceType.unknown
  · simp [resolveInputProvider, hu]
  · rcases h with h | h
    · exact absurd h hu
    · simp [resolveInputProvider, hu, h]

/-- The common input-staging path appends only the resolution event and
possibly a download event to the trace. -/
theorem parseInputCommon_trace (s : Sys) (st : St) :
    (parseInputCommon s st).st.trace = st.trace ++ [Ev.resolveInputProv] ∨
      (parseInputCommon s st).st.trace =
        st.trace ++ [Ev.resolveInputProv, Ev.downloadCall s.event.sourceType] := by
  cases hres : resolveInputProvider s.auth s.event.sourceType with
  | error e => left; simp [parseInputCommon, hres, Step.st, St.emit]
  | ok o =>
    cases o with
    | none => left; simp [parseInputCommon, hres, Step.st, St.emit]
    | some prov =>
      right
      simp only [parseInputCommon, hres]
      split <;> simp [Step.st, St.emit]

/-- Events added by the common input-staging path. -/
theorem parseInputCommon_mem (s : Sys) (st : St) (e : Ev)
    (h : e ∈ (parseInputCommon s st).st.trace) :
    e ∈ st.trace ∨ e = Ev.resolveInputProv ∨
      e = Ev.downloadCall s.event.sourceType := by
  rcases parseInputCommon_trace s st with ht | ht <;> rw [ht] at h <;>
    simp only [List.mem_append, List.mem_cons, List.mem_singleton,
      List.not_mem_nil, or_false] at h <;> tauto

/-- Events added by `_parse_input`. -/
theorem parseInput_mem (s : Sys) (st : St) (e : Ev)
    (h : e ∈ (parseInput s st).st.trace) :
    e ∈ st.trace ∨ e = Ev.batchExtraInputSteps ∨ e = Ev.resolveInputProv ∨
      e = Ev.downloadCall s.event.sourceType := by
  unfold parseInput at h
  split at h
  · split at h
    · exact Or.inl h
    · rcases parseInputCommon_mem s _ e h with h' | h' | h'
      · rw [St.emit_trace] at h'
        simp only [List.mem_append, List.mem_singleton] at h'
        tauto
      · tauto
      · tauto
  · rcases parseInputCommon_mem s st e h with h' | h' | h' <;> tauto

/-- In a batch environment with a step other than INIT, `_parse_input`
returns immediately. -/
theorem parseInput_batch_skip (s : Sys) (st : St)
    (hb : isBatch s = true) (hs : s.step ≠ "INIT") :
    parseInput s st = Step.ok st := by
  simp [parseInput, hb, hs]

/-- In a batch environment with a step other than RUN, the adapter's
`execute_function` is still called but performs no user-function
execution. -/
theorem executeFunction_batch_skip (s : Sys) (st : St)
    (hb : isBatch s = true) (hs : s.step ≠ "RUN") :
    executeFunction s st = Step.ok (st.emit Ev.callExecuteFunction) := by
  simp [executeFunction, hb, hs]

/-- Events added by `execute_function`. -/
theorem executeFunction_mem (s : Sys) (st : St) (e : Ev)
    (h : e ∈ (executeFunction s st).st.trace) :
    e ∈ st.trace ∨ e = Ev.callExecuteFunction ∨
      e = Ev.userFunctionExecuted := by
  unfold executeFunction at h
  split at h
  · rw [Step.st, St.emit_trace] at h
    simp only [List.mem_append, List.mem_singleton] at h
    tauto
  · cases ho : s.execOutcome <;>
      · rw [ho] at h
        simp only [Step.st, St.emit_trace, List.append_assoc,
          List.mem_append, List.mem_singleton] at h
        tauto

/-- In a batch environment with a step other than END, `_parse_output`
returns immediately. -/
theorem parseOutput_batch_skip (s : Sys) (st : St)
    (hb : isBatch s = true) (hs : s.step ≠ "END") :
    parseOutput s st = Step.ok st := by
  simp [parseOutput, hb, hs]

/-- When output staging is not gated away and a provider resolution for
some configured target raises, `_parse_output` raises that error before
performing any upload. -/
theorem parseOutput_resolve_err (s : Sys) (st : St) (e : SupervisorError)
    (hgate : ¬(isBatch s = true ∧ s.step ≠ "END"))
    (hres : getOutputProviders s.auth s.targets = Except.error e) :
    parseOutput s st = Step.err e st := by
  simp [parseOutput, hgate, hres]

/-- When output staging is not gated away and all providers resolve,
`_parse_output` appends exactly the upload events. -/
theorem parseOutput_ok (s : Sys) (st : St) (provs : List Provider)
    (hgate : ¬(isBatch s = true ∧ s.step ≠ "END"))
    (hres : getOutputProviders s.auth s.targets = Except.ok provs) :
    parseOutput s st =
      Step.ok { st with trace := st.trace ++ uploadAllFrom s.outputFiles 0 provs } := by
  simp [parseOutput, hgate, hres]

/-- Every event produced by the upload walk is an upload call. -/
theorem uploadAllFrom_isUpload (files : List (String × Bytes)) :
    ∀ (i : Nat) (provs : List Provider) (e : Ev),
      e ∈ uploadAllFrom files i provs → e.isUpload = true := by
  intro i provs
  induction provs generalizing i with
  | nil => intro e h; simp [uploadAllFrom] at h
  | cons p ps ih =>
    intro e h
    simp only [uploadAllFrom, List.mem_append, List.mem_map] at h
    rcases h with ⟨nc, _, rfl⟩ | h
    · rfl
    · exact ih (i + 1) e h

/-- Events added by `_parse_output` are upload calls. -/
theorem parseOutput_mem (s : Sys) (st : St) (e : Ev)
    (h : e ∈ (parseOutput s st).st.trace) :
    e ∈ st.trace ∨ e.isUpload = true := by
  unfold parseOutput at h
  split at h
  · exact Or.inl h
  · split at h
    · exact Or.inl h
    · simp only [Step.st, List.mem_append] at h
      rcases h with h | h
      · exact Or.inl h
      · exact Or.inr (uploadAllFrom_isUpload s.outputFiles 0 _ e h)

/-- Events in a run's trace come from a phase or are the final response
event. -/
theorem run_mem (s : Sys) (e : Ev) (h : e ∈ (run s).1.trace) :
    e ∈ (phases s).st.trace ∨ e = Ev.createResponse ∨
      e = Ev.createErrorResponse := by
  cases hph : phases s with
  | ok st1 =>
    cases hresp : s.respOutcome with
    | ok u =>
      simp only [run, hph, hresp, St.emit_trace, List.mem_append,
        List.mem_singleton] at h
      simp only [Step.st]
      tauto
    | error e0 =>
      simp only [run, hph, hresp, St.emit_trace, List.mem_append,
        List.mem_singleton] at h
      simp only [Step.st]
      tauto
  | err e0 st1 =>
    simp only [run, hph, St.emit_trace, List.mem_append,
      List.mem_singleton] at h
    simp only [Step.st]
    tauto

/-- Events in the three-phase pipeline's trace. -/
theorem phases_mem (s : Sys) (e : Ev) (h : e ∈ (phases s).st.trace) :
    e = Ev.batchExtraInputSteps ∨ e = Ev.resolveInputProv ∨
      e = Ev.downloadCall s.event.sourceType ∨ e = Ev.callExecuteFunction ∨
      e = Ev.userFunctionExecuted ∨ e.isUpload = true := by
  cases hpi : parseInput s (initSt s) with
  | err e0 st1 =>
    have hst : (phases s).st = st1 := by simp [phases, hpi, Step.st]
    rw [hst] at h
    rcases parseInput_mem s (initSt s) e (by rw [hpi]; exact h) with h4 | h4
    · simp [initSt] at h4
    · tauto
  | ok st1 =>
    cases hex : executeFunction s st1 with
    | err e0 st2 =>
      have hst : (phases s).st = st2 := by simp [phases, hpi, hex, Step.st]
      rw [hst] at h
      rcases executeFunction_mem s st1 e (by rw [hex]; exact h) with h3 | h3 | h3
      · rcases parseInput_mem s (initSt s) e (by rw [hpi]; exact h3) with h4 | h4
        · simp [initSt] at h4
        · tauto
      · tauto
      · tauto
    | ok st2 =>
      cases hpo : parseOutput s st2 with
      | err e0 st3 =>
        have hst : (phases s).st = st3 := by simp [phases, hpi, hex, hpo, Step.st]
        rw [hst] at h
        rcases parseOutput_mem s st2 e (by rw [hpo]; exact h) with h2 | h2
        · rcases executeFunction_mem s st1 e (by rw [hex]; exact h2) with h3 | h3 | h3
          · rcases parseInput_mem s (initSt s) e (by rw [hpi]; exact h3) with h4 | h4
            · simp [initSt] at h4
            · tauto
          · tauto
          · tauto
        · tauto
      | ok st3 =>
        have hst : (phases s).st = st3 := by simp [phases, hpi, hex, hpo, Step.st]
        rw [hst] at h
        rcases parseOutput_mem s st2 e (by rw [hpo]; exact h) with h2 | h2
        · rcases executeFunction_mem s st1 e (by rw [hex]; exact h2) with h3 | h3 | h3
          · rcases parseInput_mem s (initSt s) e (by rw [hpi]; exact h3) with h4 | h4
            · simp [initSt] at h4
            · tauto
          · tauto
          · tauto
        · tauto

/-- An upload event is not an input-staging event. -/
theorem upload_not_input_staging (e : Ev) (h : e.isUpload = true) :
    e.isResolveInput = false ∧ e.isDownload = false ∧
      e ≠ Ev.batchExtraInputSteps := by
  cases e <;> simp_all [Ev.isUpload, Ev.isResolveInput, Ev.isDownload]

/-- Events added by `_parse_input` are never upload or user-execution
events. -/
theorem parseInput_no_upload_exec (s : Sys) (st : St) (e : Ev)
    (hst : ∀ x ∈ st.trace, x.isUpload = false ∧ x.isUserExec = false)
    (h : e ∈ (parseInput s st).st.trace) :
    e.isUpload = false ∧ e.isUserExec = false := by
  rcases parseInput_mem s st e h with h' | h' | h' | h'
  · exact hst e h'
  · rw [h']; exact ⟨rfl, rfl⟩
  · rw [h']; exact ⟨rfl, rfl⟩
  · rw [h']; exact ⟨rfl, rfl⟩

/-- Events added by `execute_function` are never upload events. -/
theorem executeFunction_no_upload (s : Sys) (st : St) (e : Ev)
    (hst : ∀ x ∈ st.trace, x.isUpload = false)
    (h : e ∈ (executeFunction s st).st.trace) : e.isUpload = false := by
  rcases executeFunction_mem s st e h with h' | h' | h'
  · exact hst e h'
  · rw [h']; rfl
  · rw [h']; rfl

/-- The common input-staging path changes `INPUT_FILE_PATH` only to a
non-empty path of an existing file. -/
theorem parseInputCommon_ifp (s : Sys) (st : St) :
    (parseInputCommon s st).st.inputFilePath = st.inputFilePath ∨
      ∃ p, (parseInputCommon s st).st.inputFilePath = some p ∧ p ≠ "" ∧
        ((parseInputCommon s st).st.fs p).isSome = true := by
  cases hres : resolveInputProvider s.auth s.event.sourceType with
  | error e => left; simp [parseInputCommon, hres, Step.st, St.emit]
  | ok o =>
    cases o with
    | none => left; simp [parseInputCommon, hres, Step.st, St.emit]
    | some prov =>
      simp only [parseInputCommon, hres]
      split
      next hcond =>
        right
        exact ⟨_, rfl, hcond.1, by simpa [Step.st] using hcond.2⟩
      next hcond => left; rfl

/-! ## The claims -/

/-- C1, counterexample: the claim that the orchestrator never invokes the
adapter's function execution in a BATCH/INIT run is false on the code:
`Supervisor.run` calls `self.supervisor.execute_function()` on every run
that passes input staging, so a concrete BATCH/INIT run's trace contains
the `execute_function` call. -/
theorem c1_counterexample :
    Ev.callExecuteFunction ∈ (run sysBatchInit).1.trace := by decide

/-- C1, amended: for every run with `SUPERVISOR_TYPE=BATCH` and
`STEP=INIT`, regardless of the trigger payload, the orchestrator performs
no output upload and no user-function execution occurs (the phase-aware
batch adapter skips execution outside RUN), although the orchestrator
does call the adapter's `execute_function` method. -/
theorem c1_batch_init_no_exec_no_upload (s : Sys)
    (h1 : s.typ = "BATCH") (h2 : s.step = "INIT") :
    ∀ e ∈ (run s).1.trace, e.isUpload = false ∧ e.isUserExec = false := by
  have hb : isBatch s = true := by simp [isBatch, h1]
  intro e he
  rcases run_mem s e he with h | rfl | rfl
  · cases hpi : parseInput s (initSt s) with
    | err e0 st1 =>
      have hst : phases s = Step.err e0 st1 := by simp [phases, hpi]
      rw [hst] at h
      exact parseInput_no_upload_exec s (initSt s) e
        (by intro x hx; simp [initSt] at hx) (by rw [hpi]; exact h)
    | ok st1 =>
      have hex : executeFunction s st1 =
          Step.ok (st1.emit Ev.callExecuteFunction) :=
        executeFunction_batch_skip s st1 hb (by rw [h2]; decide)
      have hpo : parseOutput s (st1.emit Ev.callExecuteFunction) =
          Step.ok (st1.emit Ev.callExecuteFunction) :=
        parseOutput_batch_skip s _ hb (by rw [h2]; decide)
      have hst : phases s = Step.ok (st1.emit Ev.callExecuteFunction) := by
        simp [phases, hpi, hex, hpo]
      rw [hst] at h
      simp only [Step.st, St.emit_trace, List.mem_append,
        List.mem_singleton] at h
      rcases h with h | rfl
      · exact parseInput_no_upload_exec s (initSt s) e
          (by intro x hx; simp [initSt] at hx) (by rw [hpi]; exact h)
      · exact ⟨rfl, rfl⟩
  · exact ⟨rfl, rfl⟩
  · exact ⟨rfl, rfl⟩

/-- C1, witness: the amended statement at a concrete BATCH/INIT run. -/
theorem c1_witness :
    sysBatchInit.typ = "BATCH" ∧ sysBatchInit.step = "INIT" ∧
      ∀ e ∈ (run sysBatchInit).1.trace,
        e.isUpload = false ∧ e.isUserExec = false :=
  ⟨rfl, rfl, c1_batch_init_no_exec_no_upload sysBatchInit rfl rfl⟩

/-- C2: whenever input staging, function execution, output staging or
response creation raises a `FaasSupervisorError`, `Supervisor.run`
converts it into the adapter's error response: the run still returns a
response value and the error-response constructor is invoked. -/
theorem c2_error_converted_to_error_response (s : Sys)
    (h : anyPhaseFails s = true) :
    (run s).2 = Response.error ∧
      Ev.createErrorResponse ∈ (run s).1.trace := by
  unfold anyPhaseFails at h
  cases hph : phases s with
  | err e0 st1 =>
    refine ⟨by simp [run, hph], ?_⟩
    simp [run, hph, St.emit_trace]
  | ok st1 =>
    rw [hph] at h
    simp only [Step.isErr, Bool.false_or] at h
    cases hresp : s.respOutcome with
    | ok u => rw [hresp] at h; simp at h
    | error e0 =>
      refine ⟨by simp [run, hph, hresp], ?_⟩
      simp [run, hph, hresp, St.emit_trace]

/-- C2, witness: a concrete run whose user function raises. -/
theorem c2_witness :
    anyPhaseFails sysExecFails = true ∧
      ((run sysExecFails).2 = Response.error ∧
        Ev.createErrorResponse ∈ (run sysExecFails).1.trace) :=
  ⟨by decide, c2_error_converted_to_error_response sysExecFails (by decide)⟩

/-- C3: for every `SUPERVISOR_TYPE` outside LAMBDA, BATCH, OPENFAAS,
supervisor construction fails with `InvalidSupervisorTypeError`, which
escapes `_start_supervisor`, and no storage operation or
function-execution call has been made at that point. -/
theorem c3_invalid_type_fails_before_storage (s : Sys)
    (h1 : s.typ ≠ "LAMBDA") (h2 : s.typ ≠ "BATCH") (h3 : s.typ ≠ "OPENFAAS") :
    (startSupervisor s).1 =
        Except.error (SupervisorError.invalidSupervisorType s.typ) ∧
      ∀ e ∈ (startSupervisor s).2, e.isStorageOrExec = false := by
  have hc : createSupervisor s.typ =
      Except.error (SupervisorError.invalidSupervisorType s.typ) := by
    simp [createSupervisor, h1, h2, h3]
  refine ⟨by simp [startSupervisor, hc], ?_⟩
  intro e he
  simp only [startSupervisor, hc, initTrace, List.mem_cons,
    List.not_mem_nil, or_false] at he
  rcases he with rfl | rfl | rfl <;> rfl

/-- C3, witness: a concrete run with `SUPERVISOR_TYPE=FOO`. -/
theorem c3_witness :
    (startSupervisor sysBadType).1 =
        Except.error (SupervisorError.invalidSupervisorType "FOO") ∧
      ∀ e ∈ (startSupervisor sysBadType).2, e.isStorageOrExec = false :=
  c3_invalid_type_fails_before_storage sysBadType
    (by decide) (by decide) (by decide)

/-- C5: when the classified source type is UNKNOWN or no storage provider
is registered for it, `_parse_input` returns normally without raising,
performs no download, and leaves `INPUT_FILE_PATH` and the filesystem
unchanged. -/
theorem c5_unknown_event_skips_input_staging (s : Sys) (st : St)
    (h : s.event.sourceType = SourceType.unknown ∨
      s.auth.registered s.event.sourceType = false) :
    ∃ st', parseInput s st = Step.ok st' ∧
      st'.inputFilePath = st.inputFilePath ∧ st'.fs = st.fs ∧
      ∀ e ∈ st'.trace, e ∈ st.trace ∨ e.isDownload = false := by
  have hres : resolveInputProvider s.auth s.event.sourceType =
      Except.ok none := resolveInputProvider_skip s.auth s.event.sourceType h
  have hcommon : ∀ st0 : St, parseInputCommon s st0 =
      Step.ok (st0.emit Ev.resolveInputProv) := by
    intro st0
    simp [parseInputCommon, hres]
  unfold parseInput
  by_cases hb : isBatch s = true
  · rw [if_pos hb]
    by_cases hstep : s.step ≠ "INIT"
    · rw [if_pos hstep]
      exact ⟨st, rfl, rfl, rfl, fun e he => Or.inl he⟩
    · rw [if_neg hstep, hcommon]
      refine ⟨_, rfl, rfl, rfl, ?_⟩
      intro e he
      simp only [St.emit_trace, List.append_assoc, List.mem_append,
        List.mem_singleton, List.mem_cons, List.not_mem_nil, or_false] at he
      rcases he with he | he | he
      · exact Or.inl he
      · rw [he]; exact Or.inr rfl
      · rw [he]; exact Or.inr rfl
  · rw [if_neg hb, hcommon]
    refine ⟨_, rfl, rfl, rfl, ?_⟩
    intro e he
    simp only [St.emit_trace, List.mem_append, List.mem_singleton] at he
    rcases he with he | he
    · exact Or.inl he
    · rw [he]; exact Or.inr rfl

/-- C5, witness: the concrete base run carries an UNKNOWN event. -/
theorem c5_witness :
    ∃ st', parseInput baseSys (initSt baseSys) = Step.ok st' ∧
      st'.inputFilePath = (initSt baseSys).inputFilePath ∧
      st'.fs = (initSt baseSys).fs ∧
      ∀ e ∈ st'.trace, e ∈ (initSt baseSys).trace ∨ e.isDownload = false :=
  c5_unknown_event_skips_input_staging baseSys (initSt baseSys) (Or.inl rfl)

/-- C7: for every run with `SUPERVISOR_TYPE=BATCH` and `STEP=END`,
regardless of the trigger payload, input staging never occurs: no input
provider resolution, no download call, and no batch extra input step
appears in the run's trace. -/
theorem c7_batch_end_no_input_staging (s : Sys)
    (h1 : s.typ = "BATCH") (h2 : s.step = "END") :
    ∀ e ∈ (run s).1.trace, e.isResolveInput = false ∧ e.isDownload = false ∧
      e ≠ Ev.batchExtraInputSteps := by
  have hb : isBatch s = true := by simp [isBatch, h1]
  have hpi : parseInput s (initSt s) = Step.ok (initSt s) :=
    parseInput_batch_skip s (initSt s) hb (by rw [h2]; decide)
  have hex : executeFunction s (initSt s) =
      Step.ok ((initSt s).emit Ev.callExecuteFunction) :=
    executeFunction_batch_skip s (initSt s) hb (by rw [h2]; decide)
  intro e he
  rcases run_mem s e he with h | rfl | rfl
  · cases hpo : parseOutput s ((initSt s).emit Ev.callExecuteFunction) with
    | err e0 st3 =>
      have hst : phases s = Step.err e0 st3 := by
        simp [phases, hpi, hex, hpo]
      rw [hst] at h
      rcases parseOutput_mem s _ e (by rw [hpo]; exact h) with h2 | h2
      · simp only [St.emit_trace, initSt, List.nil_append,
          List.mem_singleton] at h2
        rw [h2]; exact ⟨rfl, rfl, by decide⟩
      · exact upload_not_input_staging e h2
    | ok st3 =>
      have hst : phases s = Step.ok st3 := by
        simp [phases, hpi, hex, hpo]
      rw [hst] at h
      rcases parseOutput_mem s _ e (by rw [hpo]; exact h) with h2 | h2
      · simp only [St.emit_trace, initSt, List.nil_append,
          List.mem_singleton] at h2
        rw [h2]; exact ⟨rfl, rfl, by decide⟩
      · exact upload_not_input_staging e h2
  · exact ⟨rfl, rfl, by decide⟩
  · exact ⟨rfl, rfl, by decide⟩

/-- C7, witness: a concrete BATCH/END run with a configured output
target. -/
theorem c7_witness :
    sysBatchEnd.typ = "BATCH" ∧ sysBatchEnd.step = "END" ∧
      ∀ e ∈ (run sysBatchEnd).1.trace, e.isResolveInput = false ∧
        e.isDownload = false ∧ e ≠ Ev.batchExtraInputSteps :=
  ⟨rfl, rfl, c7_batch_end_no_input_staging sysBatchEnd rfl rfl⟩

/-- C4, counterexample: the claim that a provider-resolution error for one
output target only fails that target's leg is false on the code: with two
configured targets whose second identifier is unregistered, the list
comprehension in `_get_output_providers` raises before any upload, so the
first target's upload is not performed either — the run produces the
error response with no upload call at all in its trace. -/
theorem c4_counterexample :
    (∀ e ∈ (run sysTwoTargets).1.trace, e.isUpload = false) ∧
      (run sysTwoTargets).2 = Response.error := by decide

/-- C4, amended: when `UnsupportedProviderError` or
`MissingCredentialError` is raised while resolving an output provider for
one of the configured targets (and output staging is not gated away),
the whole output-staging step fails before any upload: no upload to any
target is performed and the run returns the adapter's error response (the
process does not crash). -/
theorem c4_output_resolution_error_aborts_all_uploads (s : Sys)
    (e : SupervisorError)
    (hgate : ¬(isBatch s = true ∧ s.step ≠ "END"))
    (hres : getOutputProviders s.auth s.targets = Except.error e) :
    (run s).2 = Response.error ∧
      ∀ ev ∈ (run s).1.trace, ev.isUpload = false := by
  have hpo : ∀ st, parseOutput s st = Step.err e st :=
    fun st => parseOutput_resolve_err s st e hgate hres
  have hbase : ∀ x ∈ (initSt s).trace, Ev.isUpload x = false := by
    intro x hx; simp [initSt] at hx
  have herr : ∃ e0 st0, phases s = Step.err e0 st0 ∧
      ∀ x ∈ st0.trace, Ev.isUpload x = false := by
    cases hpi : parseInput s (initSt s) with
    | err e0 st1 =>
      refine ⟨e0, st1, by simp [phases, hpi], ?_⟩
      intro x hx
      exact (parseInput_no_upload_exec s (initSt s) x
        (fun y hy => by simp [initSt] at hy) (by rw [hpi]; exact hx)).1
    | ok st1 =>
      have h1 : ∀ x ∈ st1.trace, Ev.isUpload x = false := by
        intro x hx
        exact (parseInput_no_upload_exec s (initSt s) x
          (fun y hy => by simp [initSt] at hy) (by rw [hpi]; exact hx)).1
      cases hex : executeFunction s st1 with
      | err e0 st2 =>
        refine ⟨e0, st2, by simp [phases, hpi, hex], ?_⟩
        intro x hx
        exact executeFunction_no_upload s st1 x h1 (by rw [hex]; exact hx)
      | ok st2 =>
        have h2 : ∀ x ∈ st2.trace, Ev.isUpload x = false := by
          intro x hx
          exact executeFunction_no_upload s st1 x h1 (by rw [hex]; exact hx)
        exact ⟨e, st2, by simp [phases, hpi, hex, hpo st2], h2⟩
  rcases herr with ⟨e0, st0, hph, hup⟩
  refine ⟨by simp [run, hph], ?_⟩
  intro ev hev
  rcases run_mem s ev hev with h | rfl | rfl
  · rw [hph] at h
    exact hup ev h
  · rfl
  · rfl

/-- C4, witness: the amended statement at the concrete two-target run. -/
theorem c4_witness :
    (run sysTwoTargets).2 = Response.error ∧
      ∀ ev ∈ (run sysTwoTargets).1.trace, ev.isUpload = false :=
  c4_output_resolution_error_aborts_all_uploads sysTwoTargets
    (SupervisorError.unsupportedProvider "bad") (by decide) rfl

/-- C6: when the Onedata download receives a non-success remote response,
`download_file` returns the empty path instead of raising, the run leaves
`INPUT_FILE_PATH` unset, still executes the wrapped function, and
finishes with the success response. -/
theorem c6_soft_download_failure (s : Sys) (od : OnedataConf)
    (get : String → Nat × Bytes) (provs : List Provider)
    (hb : isBatch s = false)
    (hresIn : resolveInputProvider s.auth s.event.sourceType =
      Except.ok (some (Onedata.providerOf od get)))
    (hstc : (get (Onedata.downloadUrl od s.event.objectKey)).1 ≠ 200)
    (hifp : s.inputFilePath0 = none)
    (hexec : s.execOutcome = Except.ok ())
    (hout : getOutputProviders s.auth s.targets = Except.ok provs)
    (hresp : s.respOutcome = Except.ok ()) :
    Onedata.download_file od get s.event s.tmpInputDir s.fs0 = (s.fs0, "") ∧
      (run s).1.inputFilePath = none ∧
      Ev.userFunctionExecuted ∈ (run s).1.trace ∧
      (run s).2 = Response.success := by
  have hdl : ∀ fs : FileSys,
      Onedata.download_file od get s.event s.tmpInputDir fs = (fs, "") := by
    intro fs
    simp [Onedata.download_file, hstc]
  have hpi : parseInput s (initSt s) =
      Step.ok (((initSt s).emit Ev.resolveInputProv).emit
        (Ev.downloadCall s.event.sourceType)) := by
    simp [parseInput, hb, parseInputCommon, hresIn, Onedata.providerOf,
      hdl, St.emit]
  have hgate : ¬(isBatch s = true ∧ s.step ≠ "END") := by simp [hb]
  have hex : executeFunction s
      (((initSt s).emit Ev.resolveInputProv).emit
        (Ev.downloadCall s.event.sourceType)) =
      Step.ok ((((initSt s).emit Ev.resolveInputProv).emit
        (Ev.downloadCall s.event.sourceType)).emit Ev.callExecuteFunction
          |>.emit Ev.userFunctionExecuted) := by
    simp [executeFunction, hb, hexec]
  have hphases := hpi
  have hpoEq := parseOutput_ok s
    ((((initSt s).emit Ev.resolveInputProv).emit
      (Ev.downloadCall s.event.sourceType)).emit Ev.callExecuteFunction
        |>.emit Ev.userFunctionExecuted) provs hgate hout
  have hph : phases s =
      Step.ok { ((((initSt s).emit Ev.resolveInputProv).emit
        (Ev.downloadCall s.event.sourceType)).emit Ev.callExecuteFunction
          |>.emit Ev.userFunctionExecuted) with
        trace := ((((initSt s).emit Ev.resolveInputProv).emit
          (Ev.downloadCall s.event.sourceType)).emit Ev.callExecuteFunction
            |>.emit Ev.userFunctionExecuted).trace ++
          uploadAllFrom s.outputFiles 0 provs } := by
    simp only [phases, hpi, hex, hpoEq]
  have hrun : run s =
      ({ ((((initSt s).emit Ev.resolveInputProv).emit
        (Ev.downloadCall s.event.sourceType)).emit Ev.callExecuteFunction
          |>.emit Ev.userFunctionExecuted) with
        trace := ((((initSt s).emit Ev.resolveInputProv).emit
          (Ev.downloadCall s.event.sourceType)).emit Ev.callExecuteFunction
            |>.emit Ev.userFunctionExecuted).trace ++
          uploadAllFrom s.outputFiles 0 provs }.emit Ev.createResponse,
        Response.success) := by
    simp only [run, hph, hresp]
  refine ⟨hdl s.fs0, ?_, ?_, ?_⟩
  · rw [hrun]
    simpa [St.emit, initSt] using hifp
  · rw [hrun]
    simp [St.emit, initSt]
  · rw [hrun]

/-- C6, witness: a concrete LAMBDA run over a remote answering 404. -/
theorem c6_witness :
    (get404 (Onedata.downloadUrl odConf sysOnedata404.event.objectKey)).1 ≠
        200 ∧
      (Onedata.download_file odConf get404 sysOnedata404.event
          sysOnedata404.tmpInputDir sysOnedata404.fs0 =
            (sysOnedata404.fs0, "") ∧
        (run sysOnedata404).1.inputFilePath = none ∧
        Ev.userFunctionExecuted ∈ (run sysOnedata404).1.trace ∧
        (run sysOnedata404).2 = Response.success) :=
  ⟨by decide, c6_soft_download_failure sysOnedata404 odConf get404 []
    rfl rfl (by decide) rfl rfl rfl rfl⟩

/-- Each target with index `i` below the provider count receives an
upload call for every output file, wherever the walk starts. -/
theorem uploadAllFrom_attempted (files : List (String × Bytes)) :
    ∀ (provs : List Provider) (j i : Nat) (hi : i < provs.length)
      (nc : String × Bytes), nc ∈ files →
      Ev.uploadCall (j + i) nc.1
          ((provs.get ⟨i, hi⟩).uploadStatus nc.1 nc.2) ∈
        uploadAllFrom files j provs := by
  intro provs
  induction provs with
  | nil => intro j i hi; exact absurd hi (by simp)
  | cons p ps ih =>
    intro j i hi nc hnc
    cases i with
    | zero =>
      simp only [uploadAllFrom, List.mem_append]
      left
      have hm : Ev.uploadCall j nc.1 (p.uploadStatus nc.1 nc.2) ∈
          files.map (fun nc0 => Ev.uploadCall j nc0.1
            (p.uploadStatus nc0.1 nc0.2)) := List.mem_map_of_mem _ hnc
      simpa using hm
    | succ i0 =>
      simp only [uploadAllFrom, List.mem_append]
      right
      have hlt : i0 < ps.length := by simpa using hi
      have hm := ih (j + 1) i0 hlt nc hnc
      have hidx : j + (i0 + 1) = (j + 1) + i0 := by omega
      rw [hidx]
      exact hm

/-- C8: the Onedata upload treats exactly the status codes 201, 202 and
204 as success, logging (never raising) on any other code; and when all
output providers resolve, `_parse_output` attempts an upload to every
configured target for every output file, with no short-circuit between
targets. -/
theorem c8_upload_success_set_and_no_short_circuit :
    (∀ (od : OnedataConf) (sp : String) (fs : FileSys) (fp fn : String)
        (stc : Nat),
      (Onedata.upload_file od sp (fun _ _ => ((), stc)) fs fp fn).2 =
        !([201, 202, 204].contains stc)) ∧
    ∀ (s : Sys) (st : St) (provs : List Provider),
      ¬(isBatch s = true ∧ s.step ≠ "END") →
      getOutputProviders s.auth s.targets = Except.ok provs →
      ∀ (i : Nat) (hi : i < provs.length), ∀ nc ∈ s.outputFiles,
        ∃ stc, Ev.uploadCall i nc.1 stc ∈ (parseOutput s st).st.trace := by
  constructor
  · intro od sp fs fp fn stc
    rfl
  · intro s st provs hgate hres i hi nc hnc
    rw [parseOutput_ok s st provs hgate hres]
    refine ⟨(provs.get ⟨i, hi⟩).uploadStatus nc.1 nc.2, ?_⟩
    have hm := uploadAllFrom_attempted s.outputFiles provs 0 i hi nc hnc
    rw [Nat.zero_add] at hm
    simp only [Step.st]
    exact List.mem_append_right _ hm

/-- C8, witness: three targets whose uploads all answer 500 (a soft
failure): target 0 fails softly and targets 1 and 2 are still attempted,
and status 500 is reported as a logged failure. -/
theorem c8_witness :
    (Onedata.upload_file odConf "out" (fun _ _ => ((), 500)) emptyFs
        "/tmp/output/a.txt" "a.txt").2 = !([201, 202, 204].contains 500) ∧
      ∃ stc, Ev.uploadCall 2 "a.txt" stc ∈
        (parseOutput sysThreeSoft (initSt sysThreeSoft)).st.trace :=
  ⟨c8_upload_success_set_and_no_short_circuit.1 odConf "out" emptyFs
      "/tmp/output/a.txt" "a.txt" 500,
    c8_upload_success_set_and_no_short_circuit.2 sysThreeSoft
      (initSt sysThreeSoft) [provSoft, provSoft, provSoft] (by decide) rfl
      2 (by decide) ("a.txt", [1]) (by decide)⟩

/-- C9: over the key-value model of the remote CDMI endpoint, a file
uploaded with `upload_file` and then fetched with `download_file` through
the same addressing is written locally with byte-identical content. -/
theorem c9_upload_download_round_trip (store : Store) (od : OnedataConf)
    (sp : String) (fs fsLocal : FileSys) (filePath : String)
    (event : ParsedEvent) (inputDir : String) (content : Bytes)
    (hfile : fs filePath = some content)
    (haddr : Onedata.downloadUrl od event.objectKey =
      Onedata.uploadUrl od sp event.fileName) :
    (Onedata.download_file od
        (cdmiGet (Onedata.upload_file od sp (cdmiPut store) fs filePath
          event.fileName).1) event inputDir fsLocal).2 =
        Onedata.joinPaths inputDir event.fileName ∧
      (Onedata.download_file od
          (cdmiGet (Onedata.upload_file od sp (cdmiPut store) fs filePath
            event.fileName).1) event inputDir fsLocal).1
        (Onedata.joinPaths inputDir event.fileName) = some content := by
  have hstore : (Onedata.upload_file od sp (cdmiPut store) fs filePath
      event.fileName).1 =
      fun u => if u = Onedata.uploadUrl od sp event.fileName then
        some content else store u := by
    simp [Onedata.upload_file, cdmiPut, hfile]
  have hget : cdmiGet (Onedata.upload_file od sp (cdmiPut store) fs
      filePath event.fileName).1 (Onedata.downloadUrl od event.objectKey) =
      (200, content) := by
    rw [hstore, haddr]
    simp [cdmiGet]
  constructor
  · simp [Onedata.download_file, hget]
  · simp [Onedata.download_file, hget]

/-- The filesystem holding only the local file to upload. -/
def fsOne : FileSys :=
  fun p => if p = "/tmp/output/f.txt" then some [7, 8] else none

/-- An event addressing the same remote object the upload writes. -/
def evRound : ParsedEvent :=
  { sourceType := SourceType.onedata
  , objectKey := "/sp/out/f.txt"
  , fileName := "f.txt" }

/-- C9, witness: a concrete round trip through an initially empty
remote. -/
theorem c9_witness :
    fsOne "/tmp/output/f.txt" = some [7, 8] ∧
      ((Onedata.download_file odConf
          (cdmiGet (Onedata.upload_file odConf "out" (cdmiPut emptyFs)
            fsOne "/tmp/output/f.txt" evRound.fileName).1) evRound
          "/tmp/input" emptyFs).2 =
          Onedata.joinPaths "/tmp/input" evRound.fileName ∧
        (Onedata.download_file odConf
            (cdmiGet (Onedata.upload_file odConf "out" (cdmiPut emptyFs)
              fsOne "/tmp/output/f.txt" evRound.fileName).1) evRound
            "/tmp/input" emptyFs).1
          (Onedata.joinPaths "/tmp/input" evRound.fileName) = some [7, 8]) :=
  ⟨by decide, c9_upload_download_round_trip emptyFs odConf "out" fsOne
    emptyFs "/tmp/output/f.txt" evRound "/tmp/input" [7, 8] (by decide)
    (by decide)⟩

/-- C10: `_parse_input` sets `INPUT_FILE_PATH` only to a non-empty path
that names an existing file after the download; in every other case the
variable is left unchanged. -/
theorem c10_input_file_path_frame (s : Sys) (st : St) :
    (parseInput s st).st.inputFilePath = st.inputFilePath ∨
      ∃ p, (parseInput s st).st.inputFilePath = some p ∧ p ≠ "" ∧
        ((parseInput s st).st.fs p).isSome = true := by
  unfold parseInput
  split
  · split
    · left; rfl
    · rcases parseInputCommon_ifp s (st.emit Ev.batchExtraInputSteps) with h | h
      · left; rw [h, St.emit_inputFilePath]
      · right; exact h
  · exact parseInputCommon_ifp s st

end FaasSup
